import Mathlib

/-!
Shallow embedding of the Flask microservice defined in
src/python-service/app.py, together with theorems about its three HTTP
routes: GET /health, POST /convert-pdf and POST /generate-embeddings.

The base64 decoder and the marker-pdf pipeline are external collaborators
of the service; they are modelled as abstract functions bundled in an
environment record, while every line of control flow of the handlers
themselves is translated from the source. Python semantics that the
handler relies on (truthiness of values, the in operator, dict item
access, dict.get) are modelled explicitly on a small JSON value type.
-/

namespace PythonService

/-- JSON values, as produced by request parsing and consumed by response
serialization. -/
inductive Json where
  | null
  | bool (b : Bool)
  | num (n : Int)
  | str (s : String)
  | arr (elems : List Json)
  | obj (fields : List (String × Json))

/-- First-match lookup of a key in the field list of a JSON object,
mirroring Python dict lookup (a parsed JSON object has distinct keys). -/
def lookupField : List (String × Json) → String → Option Json
  | [], _ => none
  | (k, v) :: rest, key => if k = key then some v else lookupField rest key

/-- Python truthiness of a JSON value: None, False, 0, the empty string,
the empty list and the empty dict are falsy, everything else is truthy.
Used by the guard beginning with not data in convert_pdf. -/
def pyTruthy : Json → Bool
  | .null => false
  | .bool b => b
  | .num n => n != 0
  | .str s => s != ""
  | .arr elems => !elems.isEmpty
  | .obj fields => !fields.isEmpty

/-- The Python expression key in value: key membership for a dict,
substring test for a string, element equality for a list, and a raised
TypeError for the remaining value shapes. -/
def pyContains : Json → String → Except String Bool
  | .obj fields, key => .ok (lookupField fields key).isSome
  | .str s, key => .ok ((s.splitOn key).length != 1)
  | .arr elems, key =>
      .ok (elems.any fun e => match e with | .str t => t == key | _ => false)
  | _, _ => .error "TypeError: argument of type is not iterable"

/-- The Python expression value[key] for a string key: dict item access,
raising KeyError when the key is absent and TypeError on non-dict values. -/
def pyGetItem : Json → String → Except String Json
  | .obj fields, key =>
      match lookupField fields key with
      | some v => .ok v
      | none => .error ("KeyError: " ++ key)
  | .str _, _ => .error "TypeError: string indices must be integers"
  | .arr _, _ => .error "TypeError: list indices must be integers or slices"
  | _, _ => .error "TypeError: object is not subscriptable"

/-- The Python expression value.get(key, dflt): defined on dicts, raising
AttributeError on every other value shape. -/
def pyGet : Json → String → Json → Except String Json
  | .obj fields, key, dflt => .ok ((lookupField fields key).getD dflt)
  | _, _, _ => .error "AttributeError: object has no attribute get"

/-- What convert_single_pdf returns on success: the markdown text, the
extracted image collection (None or a collection of images), and the
metadata dict. -/
structure PipelineOutput where
  markdown : String
  images : Option (List String)
  metadata : List (String × Json)

/-- The external collaborators of the service: base64.b64decode on a
string argument (raising with some message on invalid input) and the
marker-pdf conversion pipeline applied to the decoded bytes with the
process-wide model list (raising with some message on failure). -/
structure Env where
  b64decode : String → Except String (List Nat)
  pipeline : List Nat → Except String PipelineOutput

/-- An HTTP response: the status code together with the JSON body passed
to jsonify. -/
structure HttpResponse where
  status : Nat
  body : Json

/-- The outcome of request.get_json() at the top of a handler: either the
parse raised (malformed or absent JSON body, message msg) or it produced a
JSON value. -/
inductive RequestBody where
  | unparseableJson (msg : String)
  | json (data : Json)

/-- The expression len(images) if images else 0 from the success branch of
convert_pdf: 0 when the collection is None or empty, its length otherwise. -/
def imagesExtracted : Option (List String) → Nat
  | none => 0
  | some l => if l.isEmpty then 0 else l.length

/-- The uniform error envelope used by every failure response of the
service. -/
def errorBody (msg : String) : Json :=
  .obj [("success", .bool false), ("error", .str msg)]

/-- The 400 response for a body without the pdf_base64 key. -/
def missingResp : HttpResponse :=
  ⟨400, errorBody "Missing pdf_base64 in request body"⟩

/-- The 400 response for a pdf_base64 value that fails to decode; the
message is a fixed string, independent of the raised exception. -/
def invalidBase64Resp : HttpResponse :=
  ⟨400, errorBody "Invalid base64 encoding"⟩

/-- The 500 response of the catch-all handler, embedding the text of the
caught exception. -/
def conversionFailedResp (e : String) : HttpResponse :=
  ⟨500, errorBody ("PDF conversion failed: " ++ e)⟩

/-- The 200 response of a successful conversion: markdown text plus
metadata with pages taken from the pipeline metadata dict (default 0),
chars computed as the length of the markdown string, and the extracted
image count. -/
def successResp (out : PipelineOutput) : HttpResponse :=
  ⟨200, .obj [("success", .bool true),
    ("markdown", .str out.markdown),
    ("metadata", .obj [
      ("pages", (lookupField out.metadata "pages").getD (.num 0)),
      ("chars", .num (out.markdown.length : Int)),
      ("images_extracted", .num (imagesExtracted out.images : Int))])]⟩

/-- The tail of convert_pdf from the inner try onwards: base64-decode the
pdf_base64 value (a non-string value makes b64decode raise TypeError),
answer 400 on decode failure, then run the pipeline, answering 500 on
pipeline failure and 200 with the reshaped output on success. -/
def decodeAndConvert (env : Env) (pdfB64 : Json) : HttpResponse :=
  let decoded : Except String (List Nat) :=
    match pdfB64 with
    | .str s => env.b64decode s
    | _ => .error "TypeError: argument should be a bytes-like object or ASCII string"
  match decoded with
  | .error _ => invalidBase64Resp
  | .ok pdfBytes =>
      match env.pipeline pdfBytes with
      | .error e => conversionFailedResp e
      | .ok out => successResp out

/-- The POST /convert-pdf handler. A raised JSON parse is caught by the
outer except and becomes a 500; a falsy body or one without the pdf_base64
key becomes the 400 missing-field response (with the short-circuit
evaluation of the or guard); the pdf_base64 value is then read, the
filename read with default document.pdf (used only for logging), and
control passes to decodeAndConvert. Every exception raised outside the
inner try is caught by the outer except and becomes a 500. -/
def convert_pdf (env : Env) (body : RequestBody) : HttpResponse :=
  match body with
  | .unparseableJson e => conversionFailedResp e
  | .json data =>
      if pyTruthy data then
        match pyContains data "pdf_base64" with
        | .error e => conversionFailedResp e
        | .ok true =>
            match pyGetItem data "pdf_base64" with
            | .error e => conversionFailedResp e
            | .ok pdfB64 =>
                match pyGet data "filename" (.str "document.pdf") with
                | .error e => conversionFailedResp e
                | .ok _filename => decodeAndConvert env pdfB64
        | .ok false => missingResp
      else missingResp

/-- The GET /health handler: a fixed payload with status 200. -/
def health_check : HttpResponse :=
  ⟨200, .obj [("status", .str "healthy"),
    ("service", .str "python-ml-service"),
    ("version", .str "1.0.0")]⟩

/-- The POST /generate-embeddings handler: the body is never inspected and
the response is always the fixed 501 stub. -/
def generate_embeddings (_body : RequestBody) : HttpResponse :=
  ⟨501, errorBody "Not implemented yet - use OpenAI embeddings for now"⟩

/-- The routes of the service. -/
inductive Request where
  | health
  | convertPdf (body : RequestBody)
  | generateEmbeddings (body : RequestBody)

/-- Route dispatch: each request is handled independently against the
process-wide environment (the loaded model collaborator). -/
def handleRequest (env : Env) : Request → HttpResponse
  | .health => health_check
  | .convertPdf b => convert_pdf env b
  | .generateEmbeddings b => generate_embeddings b

/-- Field access on a response body, for stating properties of the
returned JSON object. -/
def bodyField (r : HttpResponse) (key : String) : Option Json :=
  match r.body with
  | .obj fields => lookupField fields key
  | _ => none

/-- Access to a key of the metadata object of a response body. -/
def metadataField (r : HttpResponse) (key : String) : Option Json :=
  match bodyField r "metadata" with
  | some (.obj fields) => lookupField fields key
  | _ => none

/-! Concrete environments and bodies used by the witnesses. -/

/-- A concrete pipeline output whose metadata dict also carries a chars
entry that disagrees with the markdown length, to exhibit that the service
never reads it. -/
def okPipelineOutput : PipelineOutput :=
  { markdown := "# Title"
    images := some ["figure1"]
    metadata := [("pages", Json.num 3), ("chars", Json.num 999999)] }

/-- An environment in which decoding and conversion both succeed. -/
def okEnv : Env :=
  { b64decode := fun _ => .ok [37, 80, 68, 70]
    pipeline := fun _ => .ok okPipelineOutput }

/-- An environment in which base64 decoding raises. -/
def b64FailEnv : Env :=
  { b64decode := fun _ => .error "Invalid base64-encoded string"
    pipeline := fun _ => .ok okPipelineOutput }

/-- An environment in which the pipeline raises. -/
def pipelineFailEnv : Env :=
  { b64decode := fun _ => .ok [37]
    pipeline := fun _ => .error "No pages found in PDF" }

/-- A request object body carrying only the pdf_base64 key. -/
def okFields : List (String × Json) := [("pdf_base64", Json.str "JVBERg==")]

/-- A well-formed conversion request body. -/
def okBody : RequestBody := RequestBody.json (Json.obj okFields)

/-! Helper lemmas shared by several of the route theorems. -/

/-- On an object body without the pdf_base64 key, convert_pdf answers the
fixed missing-field 400 response, whether the object is empty (falsy) or
merely lacks the key. -/
theorem convert_pdf_obj_missing (env : Env) (fields : List (String × Json))
    (h : lookupField fields "pdf_base64" = none) :
    convert_pdf env (RequestBody.json (Json.obj fields)) = missingResp := by
  cases fields with
  | nil => simp [convert_pdf, pyTruthy]
  | cons f rest => simp [convert_pdf, pyTruthy, pyContains, h]

/-- On an object body carrying the pdf_base64 key with value v, convert_pdf
reduces to decodeAndConvert on v: the filename entry is read but never
influences the response. -/
theorem convert_pdf_obj_found (env : Env) (fields : List (String × Json))
    (v : Json) (h : lookupField fields "pdf_base64" = some v) :
    convert_pdf env (RequestBody.json (Json.obj fields)) = decodeAndConvert env v := by
  cases fields with
  | nil => simp [lookupField] at h
  | cons f rest => simp [convert_pdf, pyTruthy, pyContains, pyGetItem, pyGet, h]

/-- Any response of convert_pdf is either a success response of the
pipeline output or has a status other than 200. -/
theorem convert_pdf_cases (env : Env) (body : RequestBody) :
    (∃ out, convert_pdf env body = successResp out) ∨
      (convert_pdf env body).status ≠ 200 := by
  cases body with
  | unparseableJson e => right; simp [convert_pdf, conversionFailedResp]
  | json data =>
      simp only [convert_pdf]
      split
      · split
        · right; simp [conversionFailedResp]
        · split
          · right; simp [conversionFailedResp]
          · split
            · right; simp [conversionFailedResp]
            · simp only [decodeAndConvert]
              split
              · right; simp [invalidBase64Resp]
              · split
                · right; simp [conversionFailedResp]
                · left; exact ⟨_, rfl⟩
        · right; simp [missingResp]
      · right; simp [missingResp]

/-! Theorems for the claims. -/

/-- Claim C1: every response of convert_pdf with status 200 carries a
markdown string and a metadata chars field equal to the exact length of
that string; the environment is universally quantified, so the equality
holds even when the pipeline metadata dict reports a different chars
value. -/
theorem c1_chars_from_markdown (env : Env) (body : RequestBody)
    (h : (convert_pdf env body).status = 200) :
    ∃ md : String,
      bodyField (convert_pdf env body) "markdown" = some (Json.str md) ∧
      metadataField (convert_pdf env body) "chars" =
        some (Json.num (md.length : Int)) := by
  rcases convert_pdf_cases env body with ⟨out, heq⟩ | hne
  · exact ⟨out.markdown, by rw [heq]; rfl, by rw [heq]; rfl⟩
  · exact absurd h hne

/-- Witness for claim C1 at a concrete environment whose pipeline metadata
reports chars 999999 while the markdown has length 7. -/
theorem c1_chars_from_markdown_witness :
    (convert_pdf okEnv okBody).status = 200 ∧
    ∃ md : String,
      bodyField (convert_pdf okEnv okBody) "markdown" = some (Json.str md) ∧
      metadataField (convert_pdf okEnv okBody) "chars" =
        some (Json.num (md.length : Int)) :=
  ⟨rfl, c1_chars_from_markdown okEnv okBody rfl⟩

/-- Claim C2: every convert-pdf request whose JSON object body lacks the
pdf_base64 key (the field the spec names pdfBase64), including the empty
object, yields HTTP 400 with the fixed missing-field error body. -/
theorem c2_missing_field (env : Env) (fields : List (String × Json))
    (h : lookupField fields "pdf_base64" = none) :
    convert_pdf env (RequestBody.json (Json.obj fields)) =
      ⟨400, Json.obj [("success", Json.bool false),
        ("error", Json.str "Missing pdf_base64 in request body")]⟩ :=
  convert_pdf_obj_missing env fields h

/-- Witness for claim C2 at the empty JSON object body. -/
theorem c2_missing_field_witness :
    lookupField ([] : List (String × Json)) "pdf_base64" = none ∧
    convert_pdf okEnv (RequestBody.json (Json.obj [])) =
      ⟨400, Json.obj [("success", Json.bool false),
        ("error", Json.str "Missing pdf_base64 in request body")]⟩ :=
  ⟨rfl, c2_missing_field okEnv [] rfl⟩

/-- Claim C3: whenever the pdf_base64 value is a string on which the
base64 decoder raises, the response is HTTP 400 with a fixed generic error
message; the response is a constant independent of the exception text e,
which therefore never reaches the caller. -/
theorem c3_invalid_base64 (env : Env) (fields : List (String × Json))
    (s e : String)
    (hfield : lookupField fields "pdf_base64" = some (Json.str s))
    (hdecode : env.b64decode s = Except.error e) :
    convert_pdf env (RequestBody.json (Json.obj fields)) =
      ⟨400, Json.obj [("success", Json.bool false),
        ("error", Json.str "Invalid base64 encoding")]⟩ := by
  rw [convert_pdf_obj_found env fields (Json.str s) hfield]
  simp [decodeAndConvert, hdecode, invalidBase64Resp, errorBody]

/-- Witness for claim C3 at a concrete failing decoder. -/
theorem c3_invalid_base64_witness :
    lookupField [("pdf_base64", Json.str "not-valid-base64!!")] "pdf_base64" =
      some (Json.str "not-valid-base64!!") ∧
    b64FailEnv.b64decode "not-valid-base64!!" =
      Except.error "Invalid base64-encoded string" ∧
    convert_pdf b64FailEnv
        (RequestBody.json (Json.obj [("pdf_base64", Json.str "not-valid-base64!!")])) =
      ⟨400, Json.obj [("success", Json.bool false),
        ("error", Json.str "Invalid base64 encoding")]⟩ :=
  ⟨rfl, rfl,
    c3_invalid_base64 b64FailEnv [("pdf_base64", Json.str "not-valid-base64!!")]
      "not-valid-base64!!" "Invalid base64-encoded string" rfl rfl⟩

/-- Claim C4: whenever the pipeline raises with message e, the response is
HTTP 500 whose body is exactly the error envelope around the text
beginning with the fixed conversion-failed words followed by e, so the
error string contains the underlying failure description and the body
carries no partial result. -/
theorem c4_pipeline_error (env : Env) (fields : List (String × Json))
    (s e : String) (bytes : List Nat)
    (hfield : lookupField fields "pdf_base64" = some (Json.str s))
    (hdecode : env.b64decode s = Except.ok bytes)
    (hpipe : env.pipeline bytes = Except.error e) :
    convert_pdf env (RequestBody.json (Json.obj fields)) =
      ⟨500, Json.obj [("success", Json.bool false),
        ("error", Json.str ("PDF conversion failed: " ++ e))]⟩ ∧
    ∃ p : String, "PDF conversion failed: " ++ e = p ++ e := by
  refine ⟨?_, "PDF conversion failed: ", rfl⟩
  rw [convert_pdf_obj_found env fields (Json.str s) hfield]
  simp [decodeAndConvert, hdecode, hpipe, conversionFailedResp, errorBody]

/-- Witness for claim C4 at a concrete failing pipeline. -/
theorem c4_pipeline_error_witness :
    lookupField okFields "pdf_base64" = some (Json.str "JVBERg==") ∧
    pipelineFailEnv.b64decode "JVBERg==" = Except.ok [37] ∧
    pipelineFailEnv.pipeline [37] = Except.error "No pages found in PDF" ∧
    (convert_pdf pipelineFailEnv (RequestBody.json (Json.obj okFields)) =
      ⟨500, Json.obj [("success", Json.bool false),
        ("error", Json.str ("PDF conversion failed: " ++ "No pages found in PDF"))]⟩ ∧
    ∃ p : String,
      "PDF conversion failed: " ++ "No pages found in PDF" = p ++ "No pages found in PDF") :=
  ⟨rfl, rfl, rfl,
    c4_pipeline_error pipelineFailEnv okFields "JVBERg==" "No pages found in PDF"
      [37] rfl rfl rfl⟩

/-- Claim C5: every successful conversion has the exact shape success true,
the markdown text, and metadata with pages, chars and the extracted image
count, where that count equals the size of the image collection returned by
the pipeline and 0 when the collection is absent. -/
theorem c5_success_shape (env : Env) (fields : List (String × Json))
    (s : String) (bytes : List Nat) (out : PipelineOutput)
    (hfield : lookupField fields "pdf_base64" = some (Json.str s))
    (hdecode : env.b64decode s = Except.ok bytes)
    (hpipe : env.pipeline bytes = Except.ok out) :
    convert_pdf env (RequestBody.json (Json.obj fields)) =
      ⟨200, Json.obj [("success", Json.bool true),
        ("markdown", Json.str out.markdown),
        ("metadata", Json.obj [
          ("pages", (lookupField out.metadata "pages").getD (Json.num 0)),
          ("chars", Json.num (out.markdown.length : Int)),
          ("images_extracted", Json.num (imagesExtracted out.images : Int))])]⟩ ∧
    (imagesExtracted out.images : Int) =
      out.images.elim 0 (fun l => (l.length : Int)) := by
  constructor
  · rw [convert_pdf_obj_found env fields (Json.str s) hfield]
    simp [decodeAndConvert, hdecode, hpipe, successResp]
  · cases out.images with
    | none => rfl
    | some l =>
        cases l with
        | nil => rfl
        | cons a t => simp [imagesExtracted]

/-- Witness for claim C5 at a concrete succeeding pipeline. -/
theorem c5_success_shape_witness :
    lookupField okFields "pdf_base64" = some (Json.str "JVBERg==") ∧
    okEnv.b64decode "JVBERg==" = Except.ok [37, 80, 68, 70] ∧
    okEnv.pipeline [37, 80, 68, 70] = Except.ok okPipelineOutput ∧
    (convert_pdf okEnv (RequestBody.json (Json.obj okFields)) =
      ⟨200, Json.obj [("success", Json.bool true),
        ("markdown", Json.str okPipelineOutput.markdown),
        ("metadata", Json.obj [
          ("pages", (lookupField okPipelineOutput.metadata "pages").getD (Json.num 0)),
          ("chars", Json.num (okPipelineOutput.markdown.length : Int)),
          ("images_extracted",
            Json.num (imagesExtracted okPipelineOutput.images : Int))])]⟩ ∧
    (imagesExtracted okPipelineOutput.images : Int) =
      okPipelineOutput.images.elim 0 (fun l => (l.length : Int))) :=
  ⟨rfl, rfl, rfl,
    c5_success_shape okEnv okFields "JVBERg==" [37, 80, 68, 70] okPipelineOutput
      rfl rfl rfl⟩

/-- Claim C6: generate-embeddings answers the fixed 501 stub for every
request body, including an unparseable one, since the handler never
inspects the body. -/
theorem c6_embeddings_stub (env : Env) (body : RequestBody) :
    handleRequest env (Request.generateEmbeddings body) =
      ⟨501, Json.obj [("success", Json.bool false),
        ("error", Json.str "Not implemented yet - use OpenAI embeddings for now")]⟩ :=
  rfl

/-- Claim C7: the health route answers HTTP 200 with the fixed identity
payload for every environment, hence independently of the state of the
model collaborator and of any other request. -/
theorem c7_health_fixed (env : Env) :
    handleRequest env Request.health =
      ⟨200, Json.obj [("status", Json.str "healthy"),
        ("service", Json.str "python-ml-service"),
        ("version", Json.str "1.0.0")]⟩ :=
  rfl

/-- Claim C8: on a successful conversion whose pipeline metadata either
lacks the pages entry or reports a non-negative integer count, the pages
field of the response metadata is an integer greater than or equal to 0. -/
theorem c8_pages_nonneg (env : Env) (fields : List (String × Json))
    (s : String) (bytes : List Nat) (out : PipelineOutput)
    (hfield : lookupField fields "pdf_base64" = some (Json.str s))
    (hdecode : env.b64decode s = Except.ok bytes)
    (hpipe : env.pipeline bytes = Except.ok out)
    (hmeta : lookupField out.metadata "pages" = none ∨
      ∃ p : Int, lookupField out.metadata "pages" = some (Json.num p) ∧ 0 ≤ p) :
    ∃ p : Int,
      metadataField (convert_pdf env (RequestBody.json (Json.obj fields))) "pages" =
        some (Json.num p) ∧ 0 ≤ p := by
  rw [convert_pdf_obj_found env fields (Json.str s) hfield]
  have hsucc : decodeAndConvert env (Json.str s) = successResp out := by
    simp [decodeAndConvert, hdecode, hpipe]
  rw [hsucc]
  have hmf : metadataField (successResp out) "pages" =
      (lookupField out.metadata "pages").getD (Json.num 0) := rfl
  rcases hmeta with hnone | ⟨p, hp, hp0⟩
  · exact ⟨0, by rw [hmf, hnone]; rfl, le_refl 0⟩
  · exact ⟨p, by rw [hmf, hp]; rfl, hp0⟩

/-- Witness for claim C8 at a pipeline reporting 3 pages. -/
theorem c8_pages_nonneg_witness :
    lookupField okFields "pdf_base64" = some (Json.str "JVBERg==") ∧
    okEnv.b64decode "JVBERg==" = Except.ok [37, 80, 68, 70] ∧
    okEnv.pipeline [37, 80, 68, 70] = Except.ok okPipelineOutput ∧
    (lookupField okPipelineOutput.metadata "pages" = some (Json.num 3) ∧
      (0 : Int) ≤ 3) ∧
    ∃ p : Int,
      metadataField (convert_pdf okEnv (RequestBody.json (Json.obj okFields))) "pages" =
        some (Json.num p) ∧ 0 ≤ p :=
  ⟨rfl, rfl, rfl, ⟨rfl, by decide⟩,
    c8_pages_nonneg okEnv okFields "JVBERg==" [37, 80, 68, 70] okPipelineOutput
      rfl rfl rfl (Or.inr ⟨3, rfl, by decide⟩)⟩

/-- Claim C9: when the JSON parse of the request body raises with message
e, the raise is caught by the catch-all of convert_pdf and the response is
HTTP 500 with the error string formed from the fixed conversion-failed
words followed by e, never a 400 validation response. -/
theorem c9_unparseable_body (env : Env) (e : String) :
    convert_pdf env (RequestBody.unparseableJson e) =
      ⟨500, Json.obj [("success", Json.bool false),
        ("error", Json.str ("PDF conversion failed: " ++ e))]⟩ ∧
    (convert_pdf env (RequestBody.unparseableJson e)).status ≠ 400 :=
  ⟨rfl, by simp [convert_pdf, conversionFailedResp]⟩

/-- Claim C10: two object bodies whose pdf_base64 entries agree receive
identical responses under any environment; in particular the optional
filename entry, present or absent and with any value, never influences the
response. -/
theorem c10_filename_noninterference (env : Env)
    (fields₁ fields₂ : List (String × Json))
    (h : lookupField fields₁ "pdf_base64" = lookupField fields₂ "pdf_base64") :
    convert_pdf env (RequestBody.json (Json.obj fields₁)) =
      convert_pdf env (RequestBody.json (Json.obj fields₂)) := by
  cases hl : lookupField fields₁ "pdf_base64" with
  | none =>
      rw [convert_pdf_obj_missing env fields₁ hl,
        convert_pdf_obj_missing env fields₂ (h.symm.trans hl)]
  | some v =>
      rw [convert_pdf_obj_found env fields₁ v hl,
        convert_pdf_obj_found env fields₂ v (h.symm.trans hl)]

/-- Witness for claim C10: adding a filename entry leaves the response
unchanged. -/
theorem c10_filename_noninterference_witness :
    lookupField okFields "pdf_base64" =
      lookupField [("filename", Json.str "report.pdf"),
        ("pdf_base64", Json.str "JVBERg==")] "pdf_base64" ∧
    convert_pdf okEnv (RequestBody.json (Json.obj okFields)) =
      convert_pdf okEnv (RequestBody.json (Json.obj
        [("filename", Json.str "report.pdf"),
          ("pdf_base64", Json.str "JVBERg==")])) :=
  ⟨rfl,
    c10_filename_noninterference okEnv okFields
      [("filename", Json.str "report.pdf"), ("pdf_base64", Json.str "JVBERg==")] rfl⟩

end PythonService
